import Mathlib

/-!
Verification development for the DL-project repository: a shallow embedding
of the hotel-booking cancellation scoring core (RiskScorer / ModelResolver,
documented in the design spec; the corresponding Python module is not part
of the checked-in source tree) and of the customer-action form and sample
data generator found in `app.py`.  Real-valued quantities are embedded as
exact rationals.
-/

namespace DLProject

/-- Modelled from the spec: deposit type enum of a booking record
(`deposit_type: enum {NoDeposit, Refundable, NonRefund}`). -/
inductive DepositType
  | NoDeposit
  | Refundable
  | NonRefund
deriving DecidableEq, Repr

/-- Modelled from the spec: market segment enum of a booking record. -/
inductive MarketSegment
  | Direct
  | OnlineTA
  | OfflineTA_TO
  | Groups
  | Corporate
  | Complementary
  | Aviation
deriving DecidableEq, Repr

/-- Modelled from the spec: the `BookingRecord` domain entity.  Numeric
fields are integers; the spec states the invariant that they are
non-negative, captured separately by `BookingRecord.Valid`. -/
structure BookingRecord where
  lead_time : ℤ
  stays_weekend_nights : ℤ
  stays_week_nights : ℤ
  adults : ℤ
  children : ℤ
  previous_cancellations : ℤ
  booking_changes : ℤ
  deposit_type : DepositType
  market_segment : MarketSegment
deriving DecidableEq, Repr

/-- The spec invariant on a booking record: all numeric fields are
non-negative (the enum fields are in range by typing). -/
def BookingRecord.Valid (r : BookingRecord) : Prop :=
  0 ≤ r.lead_time ∧ 0 ≤ r.stays_weekend_nights ∧ 0 ≤ r.stays_week_nights ∧
  0 ≤ r.adults ∧ 0 ≤ r.children ∧ 0 ≤ r.previous_cancellations ∧
  0 ≤ r.booking_changes

instance (r : BookingRecord) : Decidable r.Valid := by
  unfold BookingRecord.Valid; infer_instance

namespace RiskScorer

/-- Modelled from the spec: the raw (unclamped) heuristic risk formula
`0.45 * (lead_time / 365) + 0.25 * [previous_cancellations > 0]
 + 0.15 * [deposit_type == NoDeposit] + 0.15 * [booking_changes > 2]`. -/
def rawScore (r : BookingRecord) : ℚ :=
  0.45 * ((r.lead_time : ℚ) / 365)
    + 0.25 * (if 0 < r.previous_cancellations then 1 else 0)
    + 0.15 * (if r.deposit_type = DepositType.NoDeposit then 1 else 0)
    + 0.15 * (if 2 < r.booking_changes then 1 else 0)

/-- Modelled from the spec: `RiskScorer.score`, the raw formula clamped to
the interval `[0, 0.99]`. -/
def score (r : BookingRecord) : ℚ :=
  max 0 (min 0.99 (rawScore r))

/-- Guarded rational division: fails (returns `none`) on a zero
denominator instead of defaulting. -/
def divChecked (a b : ℚ) : Option ℚ :=
  if b = 0 then none else some (a / b)

/-- Modelled from the spec: `RiskScorer.score` with its one division
written as a guarded (fallible) operation, to state totality. -/
def scoreChecked (r : BookingRecord) : Option ℚ :=
  (divChecked (r.lead_time : ℚ) 365).map (fun q =>
    max 0 (min 0.99 (0.45 * q
      + 0.25 * (if 0 < r.previous_cancellations then 1 else 0)
      + 0.15 * (if r.deposit_type = DepositType.NoDeposit then 1 else 0)
      + 0.15 * (if 2 < r.booking_changes then 1 else 0))))

end RiskScorer

/-- Modelled from the spec: the label half of a `PredictionResult`:
`Cancelled` when the probability reaches the 0.5 threshold. -/
inductive Label
  | Cancelled
  | NotCancelled
deriving DecidableEq, Repr

/-- Modelled from the spec: label derivation, `Cancelled if probability
≥ 0.5, else NotCancelled`. -/
def labelOf (p : ℚ) : Label :=
  if 0.5 ≤ p then Label.Cancelled else Label.NotCancelled

/-- Modelled from the spec: the `PredictionResult` output entity, a
probability together with its derived label. -/
structure PredictionResult where
  probability : ℚ
  label : Label
deriving DecidableEq, Repr

/-- Modelled from the spec: package a probability as a `PredictionResult`
with the derived label. -/
def mkResult (p : ℚ) : PredictionResult :=
  { probability := p, label := labelOf p }

/-- Modelled from the spec: the kind tag of a loaded model artifact,
one of kind-A "neural", kind-B "tabular-classifier", kind-C "generic
serialized object". -/
inductive ModelKind
  | neural
  | tabular
  | generic
deriving DecidableEq, Repr

/-- Modelled from the spec: the input handed to a model — either the
untransformed booking record (the fallback when the preprocessor fails)
or a transformed numeric row. -/
inductive MInput
  | raw (r : BookingRecord)
  | vec (xs : List ℚ)
deriving DecidableEq, Repr

/-- Modelled from the spec: the shape of a model's prediction output,
either two-dimensional (rows of probabilities) or one-dimensional. -/
inductive MOutput
  | twoD (rows : List (List ℚ))
  | oneD (xs : List ℚ)
deriving DecidableEq, Repr

/-- Modelled from the spec: a preprocessor artifact exposes a fallible
transform from a booking record to a model input. -/
structure Preprocessor where
  transform : BookingRecord → Except String MInput

/-- Modelled from the spec: a loaded model artifact, tagged with its kind
and exposing the fallible prediction interfaces the resolver may call
(batch prediction for the neural kind, probability output and plain
prediction for the tabular/generic kinds). -/
structure Model where
  kind : ModelKind
  predictBatch : MInput → Except String MOutput
  predictProba : MInput → Except String MOutput
  predictPlain : MInput → Except String MOutput

/-- Modelled from the spec: the artifacts the resolver obtains from the
caller-supplied loaders, each possibly absent. -/
structure Artifacts where
  preprocessor : Option Preprocessor
  model : Option Model

/-- Modelled from the spec: neural-kind extraction — element at index 1
of the first row when the output is two-dimensional, else the first
scalar; an out-of-range access is a failure. -/
def extractNeural : MOutput → Except String ℚ
  | MOutput.twoD (row :: _) =>
      match row.get? 1 with
      | some v => Except.ok v
      | none => Except.error "index out of range"
  | MOutput.twoD [] => Except.error "empty output"
  | MOutput.oneD (x :: _) => Except.ok x
  | MOutput.oneD [] => Except.error "empty output"

/-- Modelled from the spec: probability-interface extraction — element at
index 1 of the first row of a two-dimensional probability output. -/
def extractProba : MOutput → Except String ℚ
  | MOutput.twoD (row :: _) =>
      match row.get? 1 with
      | some v => Except.ok v
      | none => Except.error "index out of range"
  | MOutput.twoD [] => Except.error "empty output"
  | MOutput.oneD _ => Except.error "not a probability matrix"

/-- Modelled from the spec: plain-prediction extraction — the first
scalar of the output. -/
def extractFirst : MOutput → Except String ℚ
  | MOutput.oneD (x :: _) => Except.ok x
  | MOutput.oneD [] => Except.error "empty output"
  | MOutput.twoD ((x :: _) :: _) => Except.ok x
  | MOutput.twoD _ => Except.error "empty output"

/-- Modelled from the spec: tabular-classifier/generic invocation — prefer
the probability-output interface; if it fails (either the call or the
extraction), fall back to the plain prediction interface. -/
def tabularInvoke (m : Model) (x : MInput) : Except String ℚ :=
  match (match m.predictProba x with
         | Except.ok o => extractProba o
         | Except.error e => Except.error e) with
  | Except.ok p => Except.ok p
  | Except.error _ =>
      match m.predictPlain x with
      | Except.ok o => extractFirst o
      | Except.error e => Except.error e

/-- Modelled from the spec: invoke the model according to its tagged kind
(step 4 of the ModelResolver algorithm). -/
def invokeModel (m : Model) (x : MInput) : Except String ℚ :=
  match m.kind with
  | ModelKind.neural =>
      match m.predictBatch x with
      | Except.ok o => extractNeural o
      | Except.error e => Except.error e
  | ModelKind.tabular => tabularInvoke m x
  | ModelKind.generic => tabularInvoke m x

/-- Modelled from the spec: step 3 of the ModelResolver algorithm —
transform the record via the preprocessor; on failure use the
untransformed record as fallback input (never abort). -/
def effectiveInput (pre : Preprocessor) (r : BookingRecord) : MInput :=
  match pre.transform r with
  | Except.ok x => x
  | Except.error _ => MInput.raw r

namespace ModelResolver

/-- Modelled from the spec: `ModelResolver.predict`.  If either artifact
is absent, return the heuristic score; otherwise transform the record
(falling back to the raw record on transform failure), invoke the model
by kind, and on any invocation failure return the heuristic score. -/
def predict (a : Artifacts) (r : BookingRecord) : ℚ :=
  match a.preprocessor, a.model with
  | some pre, some m =>
      match invokeModel m (effectiveInput pre r) with
      | Except.ok p => p
      | Except.error _ => RiskScorer.score r
  | _, _ => RiskScorer.score r

/-- Modelled from the spec: the caller-facing operation, the predicted
probability paired with its derived label. -/
def predictResult (a : Artifacts) (r : BookingRecord) : PredictionResult :=
  mkResult (predict a r)

end ModelResolver

/-!
Definitions taken from the checked-in source `app.py`: the customer-action
form (lines 204–220) and the sample data generator (lines 55–65).
-/

/-- The customer-action score from `app.py` line 218:
`(100 - engage_score) * 0.01 + (spend / (spend + 100)) * 0.4
 + (1 if recent_days < 90 else 0) * 0.2`. -/
def actionScore (engage : ℕ) (spend : ℚ) (recent : ℕ) : ℚ :=
  (100 - (engage : ℚ)) * 0.01 + (spend / (spend + 100)) * 0.4
    + (if recent < 90 then 1 else 0) * 0.2

/-- The customer-action score with its one division written as a guarded
(fallible) operation, to state well-definedness. -/
def actionScoreChecked (engage : ℕ) (spend : ℚ) (recent : ℕ) : Option ℚ :=
  (RiskScorer.divChecked spend (spend + 100)).map (fun q =>
    (100 - (engage : ℚ)) * 0.01 + q * 0.4
      + (if recent < 90 then 1 else 0) * 0.2)

/-- The recommended action from `app.py` line 219: the discount campaign
when the score is strictly above 0.5, else the standard sequence. -/
def recommendedAction (engage : ℕ) (spend : ℚ) (recent : ℕ) : String :=
  if 0.5 < actionScore engage spend recent then
    "Send discount & email campaign"
  else
    "Standard nurture sequence"

/-- Abstract interface of the seeded numpy random generator used by
`load_sample_data` (`np.random.default_rng(42)`): `integers lo hi n`
draws `n` integers, `random n` draws `n` floats, `normal mu sigma n`
draws `n` normal deviates.  The generator is external library code; its
documented output guarantees are captured by `RNG.Spec`. -/
structure RNG where
  integers : ℤ → ℤ → ℕ → List ℤ
  random : ℕ → List ℚ
  normal : ℚ → ℚ → ℕ → List ℚ

/-- The documented contract of the numpy generator: `integers lo hi n`
(with `lo < hi`) returns `n` values in `[lo, hi)`; `random n` returns
`n` values in `[0, 1)`; `normal mu sigma n` returns `n` values. -/
def RNG.Spec (rng : RNG) : Prop :=
  (∀ lo hi n, lo < hi →
    (rng.integers lo hi n).length = n ∧
    ∀ x ∈ rng.integers lo hi n, lo ≤ x ∧ x < hi) ∧
  (∀ n, (rng.random n).length = n ∧ ∀ x ∈ rng.random n, 0 ≤ x ∧ x < 1) ∧
  (∀ mu sigma n, (rng.normal mu sigma n).length = n)

/-- Round-half-even to an integer, the rounding mode of `np.round`. -/
def roundHalfEven (q : ℚ) : ℤ :=
  if q - (⌊q⌋ : ℚ) < 1/2 then ⌊q⌋
  else if 1/2 < q - (⌊q⌋ : ℚ) then ⌊q⌋ + 1
  else if ⌊q⌋ % 2 = 0 then ⌊q⌋ else ⌊q⌋ + 1

/-- Rounding to two decimal places, `np.round(x, 2)`. -/
def round2 (x : ℚ) : ℚ :=
  (roundHalfEven (100 * x) : ℚ) / 100

/-- The sample dataset built by `load_sample_data` in `app.py` lines
55–65, one field per DataFrame column. -/
structure SampleData where
  customer_id : List ℤ
  age : List ℤ
  signup_days_ago : List ℤ
  spend : List ℚ
  churn_prob : List ℚ
deriving DecidableEq, Repr

/-- `load_sample_data(rows)` from `app.py`: customer ids `1..rows`, ages
drawn from `[18, 70)`, signup days from `[1, 1200)`, spend as normal
deviates clipped below at 5 then rounded to two decimals, churn
probabilities as uniform draws rounded to two decimals.  The generator
argument stands for `np.random.default_rng(42)`, a fixed seeded
generator. -/
def load_sample_data (rng : RNG) (rows : ℕ) : SampleData :=
  { customer_id := (List.range rows).map (fun (i : ℕ) => (i : ℤ) + 1)
    age := rng.integers 18 70 rows
    signup_days_ago := rng.integers 1 1200 rows
    spend := ((rng.normal 120 60 rows).map (fun x => max 5 x)).map round2
    churn_prob := (rng.random rows).map round2 }

/-!
Concrete fixtures used by counterexamples and witnesses.
-/

/-- A concrete booking record with all numeric fields zero and a
refundable deposit; its heuristic score is 0. -/
def rec0 : BookingRecord :=
  { lead_time := 0, stays_weekend_nights := 0, stays_week_nights := 0,
    adults := 0, children := 0, previous_cancellations := 0,
    booking_changes := 0, deposit_type := DepositType.Refundable,
    market_segment := MarketSegment.Direct }

/-- A preprocessor whose transform always fails. -/
def failPre : Preprocessor :=
  { transform := fun _ => Except.error "transform failure" }

/-- A neural-kind model whose batch prediction succeeds with the
two-dimensional output `[[3/10, 7/10]]`. -/
def demoModel : Model :=
  { kind := ModelKind.neural,
    predictBatch := fun _ => Except.ok (MOutput.twoD [[3/10, 7/10]]),
    predictProba := fun _ => Except.error "unsupported",
    predictPlain := fun _ => Except.error "unsupported" }

/-- A generic-kind model all of whose prediction interfaces fail. -/
def failModel : Model :=
  { kind := ModelKind.generic,
    predictBatch := fun _ => Except.error "unsupported",
    predictProba := fun _ => Except.error "unsupported",
    predictPlain := fun _ => Except.error "unsupported" }

/-!
Theorems settling the claims.
-/

/-- Clamping to `[0, 0.99]` written as `max`/`min` agrees with the
if-then-else form. -/
theorem clamp_eq_ite (x : ℚ) :
    max 0 (min 0.99 x) = if x < 0 then 0 else if 0.99 < x then 0.99 else x := by
  rcases lt_or_le x 0 with h | h
  · rw [if_pos h, min_eq_right (le_of_lt (lt_of_lt_of_le h (by norm_num))),
      max_eq_left (le_of_lt h)]
  · rw [if_neg (not_lt.mpr h)]
    rcases lt_or_le (0.99 : ℚ) x with h2 | h2
    · rw [if_pos h2, min_eq_left (le_of_lt h2), max_eq_right (by norm_num)]
    · rw [if_neg (not_lt.mpr h2), min_eq_right h2, max_eq_right h]

/-- Claim C2: for every booking record, `RiskScorer.score` is the weighted
sum `0.45·(lead_time/365) + 0.25·[previous_cancellations > 0]
+ 0.15·[deposit_type = NoDeposit] + 0.15·[booking_changes > 2]` clamped
to the interval `[0, 0.99]`. -/
theorem riskScore_formula (r : BookingRecord) :
    RiskScorer.score r =
      if (0.45 * ((r.lead_time : ℚ) / 365)
          + 0.25 * (if 0 < r.previous_cancellations then 1 else 0)
          + 0.15 * (if r.deposit_type = DepositType.NoDeposit then 1 else 0)
          + 0.15 * (if 2 < r.booking_changes then 1 else 0)) < 0 then 0
      else if 0.99 < (0.45 * ((r.lead_time : ℚ) / 365)
          + 0.25 * (if 0 < r.previous_cancellations then 1 else 0)
          + 0.15 * (if r.deposit_type = DepositType.NoDeposit then 1 else 0)
          + 0.15 * (if 2 < r.booking_changes then 1 else 0)) then 0.99
      else (0.45 * ((r.lead_time : ℚ) / 365)
          + 0.25 * (if 0 < r.previous_cancellations then 1 else 0)
          + 0.15 * (if r.deposit_type = DepositType.NoDeposit then 1 else 0)
          + 0.15 * (if 2 < r.booking_changes then 1 else 0)) :=
  clamp_eq_ite (RiskScorer.rawScore r)

/-- Claim C3: when both the preprocessor and the model artifact are
absent, `ModelResolver.predict` returns exactly the heuristic
`RiskScorer.score` of the record. -/
theorem predict_absent_artifacts (r : BookingRecord) :
    ModelResolver.predict ⟨none, none⟩ r = RiskScorer.score r := rfl

/-- Claim C4: the derived label of a prediction result is `Cancelled`
exactly when the probability is at least 0.5, and a probability of
exactly 0.5 yields `Cancelled`. -/
theorem label_threshold (p : ℚ) :
    ((mkResult p).label = Label.Cancelled ↔ 0.5 ≤ (mkResult p).probability) ∧
    (mkResult 0.5).label = Label.Cancelled := by
  refine ⟨?_, by norm_num [mkResult, labelOf]⟩
  simp only [mkResult, labelOf]
  split_ifs with h
  · simp [h]
  · simp [h]

/-- Claim C5: for every valid booking record the heuristic score lies in
the closed interval `[0, 0.99]`. -/
theorem score_range (r : BookingRecord) (_h : r.Valid) :
    0 ≤ RiskScorer.score r ∧ RiskScorer.score r ≤ 0.99 :=
  ⟨le_max_left _ _, max_le (by norm_num) (min_le_left _ _)⟩

/-- Witness for C5 at the concrete record `rec0`. -/
theorem score_range_witness :
    rec0.Valid ∧ (0 ≤ RiskScorer.score rec0 ∧ RiskScorer.score rec0 ≤ 0.99) :=
  ⟨by decide, score_range rec0 (by decide)⟩

/-- Claim C6: the heuristic score is total — with its single division
written as a guarded operation it still returns a value (the guard never
fires, the divisor being the constant 365). -/
theorem score_total (r : BookingRecord) (_h : r.Valid) :
    RiskScorer.scoreChecked r = some (RiskScorer.score r) := by
  unfold RiskScorer.scoreChecked RiskScorer.divChecked
  rw [if_neg (by norm_num : (365 : ℚ) ≠ 0)]
  rfl

/-- Witness for C6 at the concrete record `rec0`. -/
theorem score_total_witness :
    rec0.Valid ∧ RiskScorer.scoreChecked rec0 = some (RiskScorer.score rec0) :=
  ⟨by decide, score_total rec0 (by decide)⟩

/-- Claim C7: `ModelResolver.predict` is deterministic given fixed
artifacts — two calls with an identical record and identical artifacts
return identical results (probability and label). -/
theorem predict_deterministic (a₁ a₂ : Artifacts) (r₁ r₂ : BookingRecord)
    (ha : a₁ = a₂) (hr : r₁ = r₂) :
    ModelResolver.predictResult a₁ r₁ = ModelResolver.predictResult a₂ r₂ ∧
    ModelResolver.predict a₁ r₁ = ModelResolver.predict a₂ r₂ := by
  subst ha; subst hr; exact ⟨rfl, rfl⟩

/-- Witness for C7 at concrete artifacts and record. -/
theorem predict_deterministic_witness :
    ModelResolver.predictResult ⟨none, none⟩ rec0 =
      ModelResolver.predictResult ⟨none, none⟩ rec0 ∧
    ModelResolver.predict ⟨none, none⟩ rec0 =
      ModelResolver.predict ⟨none, none⟩ rec0 :=
  predict_deterministic ⟨none, none⟩ ⟨none, none⟩ rec0 rec0 rfl rfl

/-- Counterexample to claim C1 as stated: a failing preprocessor
transform does not make `predict` return the heuristic score — the raw
record is substituted, and when the model then succeeds its value (here
7/10) is returned, differing from `RiskScorer.score rec0 = 0`. -/
theorem predict_transform_failure_cex :
    failPre.transform rec0 = Except.error "transform failure" ∧
    ModelResolver.predict ⟨some failPre, some demoModel⟩ rec0 ≠
      RiskScorer.score rec0 := by
  refine ⟨rfl, ?_⟩
  have h1 : ModelResolver.predict ⟨some failPre, some demoModel⟩ rec0 = 7/10 := rfl
  have h2 : RiskScorer.score rec0 = 0 := by
    simp only [RiskScorer.score, RiskScorer.rawScore, rec0]
    rw [if_neg (by decide : ¬(DepositType.Refundable = DepositType.NoDeposit))]
    norm_num
  rw [h1, h2]
  norm_num

/-- Claim C1 (amended): `ModelResolver.predict` never surfaces an error —
its result is always either the heuristic score or the value of a
successful model invocation; missing artifacts and a failing model
invocation fall back to the heuristic, while a failing preprocessor
transform alone is caught by substituting the raw record. -/
theorem predict_error_containment (a : Artifacts) (r : BookingRecord) :
    (ModelResolver.predict a r = RiskScorer.score r ∨
      ∃ pre m p, a.preprocessor = some pre ∧ a.model = some m ∧
        invokeModel m (effectiveInput pre r) = Except.ok p ∧
        ModelResolver.predict a r = p) ∧
    (∀ pre m e, a.preprocessor = some pre → a.model = some m →
      invokeModel m (effectiveInput pre r) = Except.error e →
      ModelResolver.predict a r = RiskScorer.score r) := by
  obtain ⟨pre?, m?⟩ := a
  cases pre? with
  | none =>
      refine ⟨Or.inl rfl, ?_⟩
      intro pre m e h1 _ _
      exact absurd h1 (by simp)
  | some pre =>
      cases m? with
      | none =>
          refine ⟨Or.inl rfl, ?_⟩
          intro pre' m e _ h2 _
          exact absurd h2 (by simp)
      | some m =>
          cases hinv : invokeModel m (effectiveInput pre r) with
          | ok p =>
              refine ⟨Or.inr ⟨pre, m, p, rfl, rfl, hinv, ?_⟩, ?_⟩
              · simp [ModelResolver.predict, hinv]
              · intro pre' m' e h1 h2 h3
                simp only [Option.some.injEq] at h1 h2
                subst h1; subst h2
                rw [hinv] at h3
                exact absurd h3 (by simp)
          | error e =>
              refine ⟨Or.inl ?_, ?_⟩
              · simp [ModelResolver.predict, hinv]
              · intro pre' m' e' h1 h2 h3
                simp [ModelResolver.predict, hinv]

/-- Witness for the amended C1: with failing artifacts, `predict` falls
back to the heuristic score. -/
theorem predict_error_containment_witness :
    ModelResolver.predict ⟨some failPre, some failModel⟩ rec0 =
      RiskScorer.score rec0 :=
  (predict_error_containment ⟨some failPre, some failModel⟩ rec0).2
    failPre failModel "unsupported" rfl rfl rfl

/-- Claim C8: the recommended action is the discount campaign exactly
when the customer-action score is strictly above 0.5; a score of exactly
0.5 yields the standard nurture sequence (exclusive boundary). -/
theorem recommended_action_threshold (e : ℕ) (s : ℚ) (r : ℕ) :
    (recommendedAction e s r = "Send discount & email campaign" ↔
      0.5 < actionScore e s r) ∧
    (actionScore e s r = 0.5 →
      recommendedAction e s r = "Standard nurture sequence") := by
  constructor
  · unfold recommendedAction
    split_ifs with h
    · exact ⟨fun _ => h, fun _ => rfl⟩
    · exact ⟨fun hEq => absurd hEq (by decide), fun hs => absurd hs h⟩
  · intro h05
    unfold recommendedAction
    rw [h05, if_neg (lt_irrefl (0.5 : ℚ))]

/-- Witness for C8 at the boundary input: engagement 100, spend 300,
0 days since signup gives a score of exactly 0.5. -/
theorem recommended_action_threshold_witness :
    actionScore 100 300 0 = 0.5 ∧
    recommendedAction 100 300 0 = "Standard nurture sequence" :=
  ⟨by norm_num [actionScore], (recommended_action_threshold 100 300 0).2
    (by norm_num [actionScore])⟩

/-- Claim C9: for every form input with engagement at most 100 and
non-negative spend, the denominator `spend + 100` is strictly positive,
the guarded-division score agrees with the total one, and the score lies
in `[0, 1.6)`; moreover the score can exceed 0.99. -/
theorem action_score_bounds :
    (∀ (e : ℕ) (s : ℚ) (r : ℕ), e ≤ 100 → 0 ≤ s →
      0 < s + 100 ∧
      actionScoreChecked e s r = some (actionScore e s r) ∧
      0 ≤ actionScore e s r ∧ actionScore e s r < 1.6) ∧
    (∃ (e : ℕ) (s : ℚ) (r : ℕ), e ≤ 100 ∧ 0 ≤ s ∧ 0.99 < actionScore e s r) := by
  constructor
  · intro e s r he hs
    have he' : (e : ℚ) ≤ 100 := by exact_mod_cast he
    have he0 : (0 : ℚ) ≤ (e : ℚ) := Nat.cast_nonneg e
    have hden : (0 : ℚ) < s + 100 := by linarith
    refine ⟨hden, ?_, ?_, ?_⟩
    · unfold actionScoreChecked RiskScorer.divChecked actionScore
      rw [if_neg (ne_of_gt hden)]
      rfl
    · unfold actionScore
      have h1 : 0 ≤ (100 - (e : ℚ)) * 0.01 :=
        mul_nonneg (by linarith) (by norm_num)
      have h2 : 0 ≤ (s / (s + 100)) * 0.4 :=
        mul_nonneg (div_nonneg hs (le_of_lt hden)) (by norm_num)
      have h3 : (0 : ℚ) ≤ (if r < 90 then (1 : ℚ) else 0) * 0.2 := by
        split_ifs <;> norm_num
      linarith
    · unfold actionScore
      have h1 : (100 - (e : ℚ)) * 0.01 ≤ 1 := by nlinarith
      have hfrac : s / (s + 100) < 1 := (div_lt_one hden).mpr (by linarith)
      have h2 : (s / (s + 100)) * 0.4 < 0.4 := by nlinarith
      have h3 : (if r < 90 then (1 : ℚ) else 0) * 0.2 ≤ 0.2 := by
        split_ifs <;> norm_num
      linarith
  · exact ⟨0, 0, 0, by norm_num, le_refl 0, by norm_num [actionScore]⟩

/-- Witness for C9 at engagement 50, spend 100, 7 days since signup. -/
theorem action_score_bounds_witness :
    (50 : ℕ) ≤ 100 ∧ (0 : ℚ) ≤ 100 ∧
    (0 < (100 : ℚ) + 100 ∧
      actionScoreChecked 50 100 7 = some (actionScore 50 100 7) ∧
      0 ≤ actionScore 50 100 7 ∧ actionScore 50 100 7 < 1.6) :=
  ⟨by norm_num, by norm_num, action_score_bounds.1 50 100 7 (by norm_num) (by norm_num)⟩

/-- A deterministic stand-in generator satisfying the numpy contract:
every draw returns the lower end of its range. -/
def toyRng : RNG :=
  { integers := fun lo _ n => List.replicate n lo
    random := fun n => List.replicate n 0
    normal := fun mu _ n => List.replicate n mu }

/-- Half-even rounding never goes below the floor. -/
theorem floor_le_roundHalfEven (q : ℚ) : ⌊q⌋ ≤ roundHalfEven q := by
  unfold roundHalfEven
  split_ifs <;> omega

/-- Half-even rounding never exceeds the floor plus one. -/
theorem roundHalfEven_le (q : ℚ) : roundHalfEven q ≤ ⌊q⌋ + 1 := by
  unfold roundHalfEven
  split_ifs <;> omega

/-- Two-decimal rounding preserves non-negativity. -/
theorem round2_nonneg {x : ℚ} (hx : 0 ≤ x) : 0 ≤ round2 x := by
  unfold round2
  apply div_nonneg _ (by norm_num)
  have h0 : (0 : ℤ) ≤ ⌊100 * x⌋ := Int.le_floor.mpr (by push_cast; linarith)
  exact_mod_cast le_trans h0 (floor_le_roundHalfEven (100 * x))

/-- Two-decimal rounding of a value below 1 stays at most 1. -/
theorem round2_le_one {x : ℚ} (hx : x < 1) : round2 x ≤ 1 := by
  unfold round2
  rw [div_le_one (by norm_num)]
  have hfl : ⌊100 * x⌋ < 100 := Int.floor_lt.mpr (by push_cast; linarith)
  have := roundHalfEven_le (100 * x)
  exact_mod_cast le_trans this (by omega)

/-- Two-decimal rounding of a value that is at least 5 stays at least 5. -/
theorem le_round2 {x : ℚ} (hx : 5 ≤ x) : 5 ≤ round2 x := by
  unfold round2
  rw [le_div_iff₀ (by norm_num : (0:ℚ) < 100)]
  have hfl : (500 : ℤ) ≤ ⌊100 * x⌋ := Int.le_floor.mpr (by push_cast; linarith)
  have := floor_le_roundHalfEven (100 * x)
  calc (5 : ℚ) * 100 = ((500 : ℤ) : ℚ) := by norm_num
    _ ≤ (roundHalfEven (100 * x) : ℚ) := by exact_mod_cast le_trans hfl this

/-- Claim C10: for every generator meeting the numpy contract and every
requested row count of at least 1, `load_sample_data` returns exactly
`rows` rows in every column, customer ids running from 1 to `rows`, ages
in `[18, 70)`, spend at least 5, churn probabilities in `[0, 1]`, and
the output is deterministic across calls (the generator is the fixed
seeded `default_rng(42)`). -/
theorem load_sample_data_spec (rng : RNG) (h : rng.Spec) (rows : ℕ)
    (_hr : 1 ≤ rows) :
    (load_sample_data rng rows).customer_id.length = rows ∧
    (load_sample_data rng rows).age.length = rows ∧
    (load_sample_data rng rows).signup_days_ago.length = rows ∧
    (load_sample_data rng rows).spend.length = rows ∧
    (load_sample_data rng rows).churn_prob.length = rows ∧
    (∀ i, i < rows →
      (load_sample_data rng rows).customer_id[i]? = some ((i : ℤ) + 1)) ∧
    (∀ a ∈ (load_sample_data rng rows).age, 18 ≤ a ∧ a < 70) ∧
    (∀ s ∈ (load_sample_data rng rows).spend, 5 ≤ s) ∧
    (∀ c ∈ (load_sample_data rng rows).churn_prob, 0 ≤ c ∧ c ≤ 1) ∧
    load_sample_data rng rows = load_sample_data rng rows := by
  obtain ⟨hint, hrand, hnorm⟩ := h
  refine ⟨?_, ?_, ?_, ?_, ?_, ?_, ?_, ?_, ?_, rfl⟩
  · simp only [load_sample_data, List.length_map, List.length_range]
  · exact (hint 18 70 rows (by norm_num)).1
  · exact (hint 1 1200 rows (by norm_num)).1
  · simp only [load_sample_data, List.length_map, hnorm 120 60 rows]
  · simp only [load_sample_data, List.length_map, (hrand rows).1]
  · intro i hi
    simp only [load_sample_data]
    rw [List.getElem?_map, List.getElem?_range hi]
    rfl
  · intro a ha
    exact (hint 18 70 rows (by norm_num)).2 a ha
  · intro s hs
    simp only [load_sample_data, List.mem_map] at hs
    obtain ⟨y, ⟨x, _hx, hxy⟩, hys⟩ := hs
    subst hys
    subst hxy
    exact le_round2 (le_max_left 5 x)
  · intro c hc
    simp only [load_sample_data, List.mem_map] at hc
    obtain ⟨x, hx, rfl⟩ := hc
    have hb := (hrand rows).2 x hx
    exact ⟨round2_nonneg hb.1, round2_le_one hb.2⟩

/-- Witness for C10: the stand-in generator meets the contract, and at
three requested rows the customer id column has length three. -/
theorem load_sample_data_spec_witness :
    (load_sample_data toyRng 3).customer_id.length = 3 :=
  (load_sample_data_spec toyRng
    (by
      refine ⟨?_, ?_, ?_⟩
      · intro lo hi n hl
        refine ⟨List.length_replicate _ _, ?_⟩
        intro x hx
        rw [List.eq_of_mem_replicate hx]
        exact ⟨le_refl _, hl⟩
      · intro n
        refine ⟨List.length_replicate _ _, ?_⟩
        intro x hx
        rw [List.eq_of_mem_replicate hx]
        norm_num
      · intro mu sigma n
        exact List.length_replicate _ _)
    3 (by norm_num)).1

end DLProject
